import Mathlib

set_option maxHeartbeats 1000000
set_option maxRecDepth 4000

/- Shallow embedding of the customer-support chat relay route handler
   (the robust variant of the POST handler in the chat API route, the one
   the specification describes: it emits status/warning events, classifies
   first-completion errors and guards the follow-up completion with its own
   try/catch).  External effects (MCP client, OpenAI completion calls,
   JSON.parse of the model-produced argument text) are supplied by an
   explicit environment; the handler itself is translated as a pure
   function producing the emitted event trace, the completion requests it
   issues and the tool invocations it performs. -/

/-- Roles a caller-supplied chat message can carry (the route's Message
interface allows user, assistant and system). -/
inductive Role where
  | user
  | assistant
  | system
deriving DecidableEq

/-- The wire string for a role, as produced when the handler forwards
caller messages unchanged. -/
def roleString : Role → String
  | Role.user => "user"
  | Role.assistant => "assistant"
  | Role.system => "system"

/-- A caller-supplied chat message. -/
structure Message where
  role : Role
  content : String
deriving DecidableEq

/-- The parsed POST request body (interface ChatRequest). -/
structure ChatRequest where
  messages : List Message
  model : String
  tone : String
  language : String
deriving DecidableEq

/-- A tool descriptor returned by the MCP listTools call.  The input schema
is never inspected by the handler, so it is carried in serialized form. -/
structure McpToolDesc where
  name : String
  description : Option String
  inputSchema : Option String
deriving DecidableEq

/-- The structured error produced when listing tools fails (interface
McpError). -/
structure McpError where
  source : String
  operation : String
  message : String
  details : Option String
deriving DecidableEq

/-- One content block of an MCP tool result. -/
structure ContentBlock where
  type : Option String
  text : Option String
deriving DecidableEq

/-- An MCP tool result (interface McpToolResult): an optional list of
content blocks. -/
structure McpToolResult where
  content : Option (List ContentBlock)
deriving DecidableEq

/-- A tool in the OpenAI calling convention, produced by
convertMcpToolsToOpenAI. -/
structure OpenAITool where
  name : String
  description : String
  parameters : String
deriving DecidableEq

/-- One tool-call delta fragment of a streamed completion chunk: an index,
optional id, optional function name and optional partial argument text. -/
structure ToolCallDelta where
  index : Option Nat
  id : Option String
  fname : Option String
  fargs : Option String
deriving DecidableEq

/-- The accumulated per-index tool-call record
(`\x7b id, name, arguments \x7d` in the source). -/
structure ToolCallRec where
  id : String
  name : String
  arguments : String
deriving DecidableEq

/-- The delta of one streamed completion chunk: optional content text and
an optional list of tool-call fragments. -/
structure Delta where
  content : Option String
  tool_calls : Option (List ToolCallDelta)
deriving DecidableEq

/-- JavaScript truthiness of a string-or-undefined value: false exactly on
undefined and the empty string. -/
def optTruthy (o : Option String) : Bool := o.getD "" != ""

/-- The freshly initialised record for an index seen for the first time:
`\x7b id: tc.id || "", name: tc.function?.name || "", arguments: "" \x7d`. -/
def initRec (d : ToolCallDelta) : ToolCallRec :=
  { id := d.id.getD "", name := d.fname.getD "", arguments := "" }

/-- One merge step of the accumulation loop: id and name are overwritten
when the fragment supplies a truthy value, argument text is appended when
supplied.  The three source statements update disjoint fields, so they are
rendered as a single record update. -/
def applyDelta (r : ToolCallRec) (d : ToolCallDelta) : ToolCallRec :=
  { id := if optTruthy d.id then d.id.getD "" else r.id
    name := if optTruthy d.fname then d.fname.getD "" else r.name
    arguments := if optTruthy d.fargs then r.arguments ++ d.fargs.getD "" else r.arguments }

/-- The accumulated record for one index after the merge loop has consumed
the given fragments, in arrival order: initialise on the first fragment,
then merge every fragment. -/
def mergeAt (ds : List ToolCallDelta) : Option ToolCallRec :=
  ds.foldl (fun acc d => some (applyDelta (acc.getD (initRec d)) d)) none

/-- The last truthy value a projection of the fragments supplies, with a
default for when none does. -/
def lastSupplied (f : ToolCallDelta → Option String) : String → List ToolCallDelta → String
  | dflt, [] => dflt
  | dflt, d :: ds => lastSupplied f (if optTruthy (f d) then (f d).getD "" else dflt) ds

/-- The concatenation, in arrival order, of all truthy argument texts the
fragments supply. -/
def argsConcat : List ToolCallDelta → String
  | [] => ""
  | d :: ds => (if optTruthy d.fargs then d.fargs.getD "" else "") ++ argsConcat ds

/-- JavaScript sparse-array write `a[i] = v`: indices beyond the current
length are padded with holes. -/
def setAt : List (Option ToolCallRec) → Nat → ToolCallRec → List (Option ToolCallRec)
  | [], 0, v => [some v]
  | [], n + 1, v => none :: setAt [] n v
  | _ :: xs, 0, v => some v :: xs
  | x :: xs, n + 1, v => x :: setAt xs n v

/-- JavaScript sparse-array read `a[i]`: undefined on a hole or out of
range. -/
def getAt (l : List (Option ToolCallRec)) (i : Nat) : Option ToolCallRec :=
  match l.get? i with
  | some o => o
  | none => none

/-- Processing of one tool-call fragment of a chunk: skipped when its index
is undefined, otherwise initialise-if-absent and merge at that index. -/
def stepDelta (tcs : List (Option ToolCallRec)) (d : ToolCallDelta) : List (Option ToolCallRec) :=
  match d.index with
  | none => tcs
  | some i => setAt tcs i (applyDelta ((getAt tcs i).getD (initRec d)) d)

/-- A server-push stream event, as serialized by the send helper. -/
inductive SEvent where
  | status (content : String)
  | warning (content : String)
  | content (content : String)
  | error (content : String) (errorType : Option String)
  | done
deriving DecidableEq

/-- The state of the first-completion streaming loop: the accumulated full
content, the sparse tool-call array and the content events emitted so
far. -/
structure ScanState where
  fullContent : String
  toolCalls : List (Option ToolCallRec)
  events : List SEvent
deriving DecidableEq

/-- The content branch of the streaming loop: a truthy content delta is
appended to fullContent and emitted as a content event. -/
def contentStep (st : ScanState) (c : Option String) : ScanState :=
  match c with
  | some s =>
    if s = "" then st
    else { st with fullContent := st.fullContent ++ s, events := st.events ++ [SEvent.content s] }
  | none => st

/-- Processing of one streamed chunk (chunk.choices[0]?.delta): content
first, then every tool-call fragment in order. -/
def stepChunk (st : ScanState) (ch : Option Delta) : ScanState :=
  match ch with
  | none => st
  | some dl =>
    let st1 := contentStep st dl.content
    match dl.tool_calls with
    | some l => { st1 with toolCalls := l.foldl stepDelta st1.toolCalls }
    | none => st1

/-- The whole first-completion streaming loop over its chunks. -/
def processChunks (chunks : List (Option Delta)) : ScanState :=
  chunks.foldl stepChunk { fullContent := "", toolCalls := [], events := [] }

/-- The error thrown by a failed first completion request, as inspected by
the classification branch (status, code, message). -/
structure CompErr where
  status : Option Nat
  code : Option String
  message : Option String
deriving DecidableEq

/-- The external world of one request: the MCP listTools outcome, the two
completion calls, JSON.parse applied to accumulated argument text, and the
underlying MCP callTool operation (which may fail). -/
structure Env where
  listTools : Except String (List McpToolDesc)
  first : Except CompErr (List (Option Delta))
  followUp : Except String (List (Option Delta))
  parse : String → Except String Unit
  rawCall : String → String → String → Except String McpToolResult

/-- getMcpTools: on success the tool list with no error, on any failure an
empty list plus a structured error; it never raises past this boundary. -/
def getMcpTools (env : Env) : List McpToolDesc × Option McpError :=
  match env.listTools with
  | Except.ok ts => (ts, none)
  | Except.error d =>
    ([], some { source := "mcp", operation := "listTools"
                message := "Failed to connect to MCP server", details := some d })

/-- callMcpTool: on success the result as returned, on any failure a
synthetic result whose single text block embeds the tool name and the
failure detail; it never raises. -/
def callMcpTool (env : Env) (mcpUrl toolName argsText : String) : McpToolResult :=
  match env.rawCall mcpUrl toolName argsText with
  | Except.ok r => r
  | Except.error e =>
    { content := some [{ type := some "text", text := some ("MCP tool error (" ++ toolName ++ "): " ++ e) }] }

/-- The default parameters object used when a tool supplies no input
schema, in serialized form. -/
def defaultParameters : String := "\x7b \"type\": \"object\", \"properties\": \x7b\x7d \x7d"

/-- convertMcpToolsToOpenAI: wrap every descriptor in the OpenAI function
shape, defaulting description and parameters. -/
def convertMcpToolsToOpenAI (ts : List McpToolDesc) : List OpenAITool :=
  ts.map (fun t =>
    { name := t.name, description := t.description.getD ""
      parameters := t.inputSchema.getD defaultParameters })

/-- The tones lookup table of getTonePrompt (the three declared keys). -/
def tonesLookup (tone : String) : Option String :=
  if tone = "professional" then
    some "Respond in a professional, formal manner. Be courteous and efficient."
  else if tone = "friendly" then
    some "Be warm, friendly, and conversational. Use a casual but helpful tone."
  else if tone = "concise" then
    some "Keep responses brief and to the point. Avoid unnecessary elaboration."
  else none

/-- getTonePrompt: table lookup with fallback to the professional text. -/
def getTonePrompt (tone : String) : String :=
  (tonesLookup tone).getD "Respond in a professional, formal manner. Be courteous and efficient."

/-- The languages lookup table of getLanguageName (the nine declared
codes). -/
def languagesLookup (code : String) : Option String :=
  if code = "en" then some "English"
  else if code = "es" then some "Spanish"
  else if code = "fr" then some "French"
  else if code = "de" then some "German"
  else if code = "pt" then some "Portuguese"
  else if code = "zh" then some "Chinese"
  else if code = "ja" then some "Japanese"
  else if code = "ko" then some "Korean"
  else if code = "ar" then some "Arabic"
  else none

/-- getLanguageName: table lookup with fallback to English. -/
def getLanguageName (code : String) : String :=
  (languagesLookup code).getD "English"

/-- formatError: `[SOURCE] message` followed by ` - details` when details
is truthy. -/
def formatError (source msg : String) (details : Option String) : String :=
  let formatted := "[" ++ source.toUpper ++ "] " ++ msg
  match details with
  | some d => if d = "" then formatted else formatted ++ " - " ++ d
  | none => formatted

/-- The system prompt assembled from tone and language. -/
def buildSystemPrompt (tone language : String) : String :=
  "You are a helpful customer support agent for TechGear, a company that sells computer products including monitors, printers, keyboards, mice, and other peripherals.\n\n"
  ++ getTonePrompt tone
  ++ "\n\nIMPORTANT: Always respond in " ++ getLanguageName language
  ++ ". The customer prefers " ++ getLanguageName language ++ ".\n\n"
  ++ "Your job is to help customers with:\n- Product information and recommendations\n- Order status and tracking\n- Returns and refunds\n- Technical support\n- General inquiries\n\n"
  ++ "Use the available tools to look up information when needed. Always be helpful and provide accurate information."

/-- One finalized tool-call entry of the assistant message
(`\x7b id, type: "function", function: \x7b name, arguments \x7d \x7d`). -/
structure ToolCallEntry where
  id : String
  name : String
  arguments : String
deriving DecidableEq

/-- An outbound message of a completion request, flattened: role, optional
content, optional tool_call_id and optional finalized tool-call list (a
sparse array in the source, so entries are optional). -/
structure OutMessage where
  role : String
  content : Option String
  tool_call_id : Option String
  tool_calls : Option (List (Option ToolCallEntry))
deriving DecidableEq

/-- A caller message forwarded unchanged into the outbound list. -/
def toOutMessage (m : Message) : OutMessage :=
  { role := roleString m.role, content := some m.content, tool_call_id := none, tool_calls := none }

/-- The system message the handler prepends, built from the request
settings. -/
def systemMessageOf (req : ChatRequest) : OutMessage :=
  { role := "system", content := some (buildSystemPrompt req.tone req.language)
    tool_call_id := none, tool_calls := none }

/-- allMessages: the built system message followed by the caller history,
roles passed through unchanged. -/
def allMessagesOf (req : ChatRequest) : List OutMessage :=
  systemMessageOf req :: req.messages.map toOutMessage

/-- A completion request as issued to the OpenAI client: model, messages
and an optional tools field (undefined when absent). -/
structure CompletionRequest where
  model : String
  messages : List OutMessage
  tools : Option (List OpenAITool)
deriving DecidableEq

/-- The first completion request: defaulted model, assembled messages, and
the converted tools only when at least one is available. -/
def firstRequestOf (req : ChatRequest) (env : Env) : CompletionRequest :=
  let openaiTools := convertMcpToolsToOpenAI (getMcpTools env).fst
  { model := if req.model = "" then "gpt-4o-mini" else req.model
    messages := allMessagesOf req
    tools := if openaiTools.length > 0 then some openaiTools else none }

/-- Substring test used by the error classification branches
(String.prototype.includes with a non-empty needle). -/
def strContains (s pat : String) : Bool := (s.splitOn pat).length != 1

/-- Classification of a failed first completion request into the fixed
user-facing messages. -/
def classifyOpenAIError (e : CompErr) : String :=
  let msg := e.message.getD ""
  if e.status == some 401 || strContains msg "401" || strContains msg "Unauthorized" then
    "OpenAI: Invalid API key. Please check OPENAI_API_KEY."
  else if e.status == some 429 || strContains msg "429" then
    "OpenAI: Rate limit exceeded. Please try again later."
  else if e.status == some 500 || strContains msg "500" then
    "OpenAI: Server error. Please try again."
  else if e.code == some "ENOTFOUND" || strContains msg "ENOTFOUND" then
    "OpenAI: Network error - cannot reach api.openai.com"
  else "OpenAI: " ++ (if msg = "" then "Unknown error" else msg)

/-- The outermost catch: heuristic classification of an uncaught error
message into network, parse or unknown, emitted with an errorType tag. -/
def outerCatchEvent (msg : String) : SEvent :=
  if strContains msg "fetch" || strContains msg "network" || strContains msg "ENOTFOUND" then
    SEvent.error ("Network error: Unable to reach external services. " ++ msg) (some "network")
  else if strContains msg "JSON" then
    SEvent.error ("Data parsing error: " ++ msg) (some "parse")
  else SEvent.error msg (some "unknown")

/-- One escaped character of the JSON.stringify model. -/
def jsonEscapeChar (c : Char) : String :=
  if c = '\\' then "\\\\"
  else if c = '\"' then "\\\""
  else if c = '\n' then "\\n"
  else if c = '\t' then "\\t"
  else if c = '\r' then "\\r"
  else String.singleton c

/-- String escaping of the JSON.stringify model. -/
def jsonEscape (s : String) : String := String.join (s.data.map jsonEscapeChar)

/-- JavaScript Array.prototype.join with the given separator (undefined
elements have already been rendered by the caller). -/
def joinStrings (sep : String) : List String → String
  | [] => ""
  | [a] => a
  | a :: b :: rest => a ++ sep ++ joinStrings sep (b :: rest)

/-- JSON.stringify of one content block (undefined fields are omitted). -/
def stringifyBlock (c : ContentBlock) : String :=
  let fields :=
    (match c.type with
     | some t => ["\"type\":\"" ++ jsonEscape t ++ "\""]
     | none => []) ++
    (match c.text with
     | some t => ["\"text\":\"" ++ jsonEscape t ++ "\""]
     | none => [])
  "\x7b" ++ joinStrings "," fields ++ "\x7d"

/-- JSON.stringify of a whole tool result. -/
def stringifyResult (r : McpToolResult) : String :=
  match r.content with
  | none => "\x7b\x7d"
  | some bs => "\x7b\"content\":[" ++ joinStrings "," (bs.map stringifyBlock) ++ "]\x7d"

/-- The newline-join of the text fields of the content blocks; an
undefined text field renders as the empty string, as Array.join does. -/
def joinedText (bs : List ContentBlock) : String :=
  joinStrings "\n" (bs.map (fun c => c.text.getD ""))

/-- The displayed text of a tool result:
`result.content?.map(c => c.text).join("\n") || JSON.stringify(result)`. -/
def resultText (r : McpToolResult) : String :=
  match r.content with
  | none => stringifyResult r
  | some bs => if joinedText bs = "" then stringifyResult r else joinedText bs

/-- The argument text handed to JSON.parse: `tc.arguments || "\x7b\x7d"`. -/
def argTextOf (tc : ToolCallRec) : String :=
  if tc.arguments = "" then "\x7b\x7d" else tc.arguments

/-- A tool-result message tied to the originating call identifier. -/
def mkToolMsg (callId text : String) : OutMessage :=
  { role := "tool", content := some text, tool_call_id := some callId, tool_calls := none }

/-- The outcome of the tool round-trip loop: the tool-result messages
pushed, the tool invocations performed, and the message of an uncaught
throw when iteration hit a hole of the sparse array. -/
structure LoopResult where
  msgs : List OutMessage
  invocations : List (String × String)
  crash : Option String
deriving DecidableEq

/-- The tool round-trip loop.  For a real record: JSON.parse failure is
caught and pushed as a formatted error tool message; otherwise callMcpTool
is invoked (it never raises) and its display text pushed.  A hole of the
sparse array makes both the try body and the catch body dereference
undefined, so the throw escapes the loop (the exact engine message is
irrelevant downstream and modelled by a fixed text). -/
def toolLoop (env : Env) (mcpUrl : String) : List (Option ToolCallRec) → LoopResult
  | [] => { msgs := [], invocations := [], crash := none }
  | none :: _ =>
    { msgs := [], invocations := []
      crash := some "Cannot read properties of undefined (reading arguments)" }
  | some tc :: rest =>
    match env.parse (argTextOf tc) with
    | Except.error em =>
      let r := toolLoop env mcpUrl rest
      { msgs := mkToolMsg tc.id (formatError "mcp" ("Tool " ++ tc.name ++ " failed") (some em)) :: r.msgs
        invocations := r.invocations, crash := r.crash }
    | Except.ok _ =>
      let res := callMcpTool env mcpUrl tc.name (argTextOf tc)
      let r := toolLoop env mcpUrl rest
      { msgs := mkToolMsg tc.id (resultText res) :: r.msgs
        invocations := (tc.name, argTextOf tc) :: r.invocations, crash := r.crash }

/-- The tool-name summary of the status event
(`toolCalls.map(tc => tc.name).join(", ")`, holes rendering empty). -/
def toolNamesOf (tcs : List (Option ToolCallRec)) : String :=
  joinStrings ", " (tcs.map (fun o => match o with | some r => r.name | none => ""))

/-- The assistant message carrying the finalized tool calls (content null
when no text streamed). -/
def assistantMsgOf (st : ScanState) : OutMessage :=
  { role := "assistant"
    content := if st.fullContent = "" then none else some st.fullContent
    tool_call_id := none
    tool_calls := some (st.toolCalls.map (Option.map
      (fun r => ({ id := r.id, name := r.name, arguments := r.arguments } : ToolCallEntry)))) }

/-- The content events of the follow-up completion stream (only truthy
content deltas are forwarded). -/
def followUpContentEvents (chunks : List (Option Delta)) : List SEvent :=
  chunks.foldl (fun acc ch =>
    match ch with
    | some dl =>
      match dl.content with
      | some s => if s = "" then acc else acc ++ [SEvent.content s]
      | none => acc
    | none => acc) []

/-- The MCP connection report event: a warning on discovery failure, a
warning on an empty catalog, a status otherwise. -/
def mcpStatusEvent (env : Env) : SEvent :=
  match (getMcpTools env).snd with
  | some er =>
    SEvent.warning ("MCP: " ++ er.message ++ " (" ++ er.details.getD "" ++ "). Proceeding without tools.")
  | none =>
    if (getMcpTools env).fst.length = 0 then SEvent.warning "MCP: No tools available from server."
    else SEvent.status ("MCP: Connected (" ++ toString (getMcpTools env).fst.length ++ " tools available)")

/-- The three events every stream starts with, before the first completion
call is made. -/
def preEvents (env : Env) : List SEvent :=
  [SEvent.status "Connecting to MCP server...", mcpStatusEvent env,
   SEvent.status "Connecting to OpenAI..."]

/-- Everything one streaming run produces: the event trace, the first
completion request, the follow-up completion request when one was issued,
and the tool invocations performed. -/
structure RunResult where
  events : List SEvent
  firstRequest : CompletionRequest
  followUpRequest : Option CompletionRequest
  invocations : List (String × String)
deriving DecidableEq

/-- The part of the handler after a successful first completion stream:
when tool calls were accumulated, run the tool round trip and the guarded
follow-up completion (its failure yields an error event but the done event
and close still follow); otherwise emit done directly. -/
def afterFirst (env : Env) (mcpUrl : String) (fr : CompletionRequest) (st : ScanState) : RunResult :=
  if st.toolCalls.length > 0 then
    let names := toolNamesOf st.toolCalls
    let baseMsgs := fr.messages ++ [assistantMsgOf st]
    let lr := toolLoop env mcpUrl st.toolCalls
    match lr.crash with
    | some cm =>
      { events := preEvents env ++ (st.events ++
          [SEvent.status ("Using tools: " ++ names), outerCatchEvent cm])
        firstRequest := fr, followUpRequest := none, invocations := lr.invocations }
    | none =>
      let fuReq : CompletionRequest := { model := fr.model, messages := baseMsgs ++ lr.msgs, tools := none }
      match env.followUp with
      | Except.ok fchunks =>
        { events := preEvents env ++ (st.events ++ ([SEvent.status ("Using tools: " ++ names)]
            ++ (followUpContentEvents fchunks ++ [SEvent.done])))
          firstRequest := fr, followUpRequest := some fuReq, invocations := lr.invocations }
      | Except.error m =>
        { events := preEvents env ++ (st.events ++
            [SEvent.status ("Using tools: " ++ names),
             SEvent.error (formatError "openai" "Follow-up request failed" (some m)) none,
             SEvent.done])
          firstRequest := fr, followUpRequest := some fuReq, invocations := lr.invocations }
  else
    { events := preEvents env ++ (st.events ++ [SEvent.done])
      firstRequest := fr, followUpRequest := none, invocations := [] }

/-- One whole streaming run of the handler body: a failed first completion
is classified, reported and the stream closed without done; otherwise the
stream is scanned and the run continues in afterFirst. -/
def runStream (mcpUrl : String) (req : ChatRequest) (env : Env) : RunResult :=
  match env.first with
  | Except.error ce =>
    { events := preEvents env ++ [SEvent.error (classifyOpenAIError ce) none]
      firstRequest := firstRequestOf req env, followUpRequest := none, invocations := [] }
  | Except.ok chunks => afterFirst env mcpUrl (firstRequestOf req env) (processChunks chunks)

/-- The result of the POST handler: a non-streaming JSON error response,
or the streamed run. -/
inductive PostResult where
  | jsonResponse (status : Nat) (errorMsg : String)
  | streamResponse (result : RunResult)
deriving DecidableEq

/-- The POST handler: configuration checks first (JavaScript truthiness,
so absent or empty values fail), then body parsing (none models a missing
or unparsable JSON body), then the stream. -/
def POST (apiKey mcpUrl : Option String) (body : Option ChatRequest) (env : Env) : PostResult :=
  if apiKey.getD "" = "" then
    PostResult.jsonResponse 500 "OPENAI_API_KEY environment variable is not set"
  else if mcpUrl.getD "" = "" then
    PostResult.jsonResponse 500 "MCP_SERVER_URL environment variable is not set"
  else
    match body with
    | none => PostResult.jsonResponse 400 "Invalid JSON in request body"
    | some req => PostResult.streamResponse (runStream (mcpUrl.getD "") req env)

/- Concrete data used by counterexamples and witnesses. -/

/-- A fragment supplying only argument text "a" at index 0. -/
def fragArgA : ToolCallDelta := { index := some 0, id := none, fname := none, fargs := some "a" }

/-- A fragment supplying only argument text "b" at index 0. -/
def fragArgB : ToolCallDelta := { index := some 0, id := none, fname := none, fargs := some "b" }

/-- A benign environment: empty tool catalog, a first stream with one
content chunk, everything else succeeding. -/
def sampleEnv : Env :=
  { listTools := Except.ok []
    first := Except.ok [some { content := some "hello", tool_calls := none }]
    followUp := Except.ok []
    parse := fun _ => Except.ok ()
    rawCall := fun _ _ _ => Except.ok { content := some [{ type := some "text", text := some "ok" }] } }

/-- sampleEnv with a failing listTools. -/
def envListFail : Env := { sampleEnv with listTools := Except.error "connect ECONNREFUSED" }

/-- A chunk carrying one complete tool-call fragment at index 0. -/
def toolDeltaChunk : Option Delta :=
  some { content := none
         tool_calls := some [{ index := some 0, id := some "call_1", fname := some "lookup_order", fargs := some "\x7b\x7d" }] }

/-- An environment whose first stream yields one content chunk and one
tool-call fragment. -/
def envToolCall : Env :=
  { sampleEnv with
    listTools := Except.ok [{ name := "lookup_order", description := none, inputSchema := none }]
    first := Except.ok [some { content := some "checking", tool_calls := none }, toolDeltaChunk] }

/-- envToolCall with a failing follow-up completion. -/
def envFollowFail : Env := { envToolCall with followUp := Except.error "boom" }

/-- envToolCall with a failing underlying MCP callTool. -/
def envRawFail : Env :=
  { envToolCall with rawCall := fun _ _ _ => Except.error "ECONNREFUSED 127.0.0.1" }

/-- envToolCall whose tool result has no content list. -/
def envEmptyResult : Env :=
  { envToolCall with rawCall := fun _ _ _ => Except.ok { content := none } }

/-- A plain request: one user message, defaulted model. -/
def reqPlain : ChatRequest :=
  { messages := [{ role := Role.user, content := "hi" }], model := "", tone := "friendly", language := "en" }

/-- A request whose history itself carries a system-role message. -/
def reqWithSystem : ChatRequest :=
  { messages := [{ role := Role.system, content := "override" }], model := "m", tone := "professional", language := "en" }

/- Helper lemmas. -/

/-- A false truthiness test means the defaulted value is empty. -/
theorem optTruthy_false {o : Option String} (h : optTruthy o = false) : o.getD "" = "" := by
  simpa [optTruthy] using h

/-- The accumulation loop run from an already-initialised record is
determined field by field: last truthy id, last truthy name, appended
argument text. -/
theorem mergeFrom_eq (ds : List ToolCallDelta) (r : ToolCallRec) :
    ds.foldl (fun acc d => some (applyDelta (acc.getD (initRec d)) d)) (some r) = some
      { id := lastSupplied (fun x => x.id) r.id ds
        name := lastSupplied (fun x => x.fname) r.name ds
        arguments := r.arguments ++ argsConcat ds } := by
  induction ds generalizing r with
  | nil => simp [lastSupplied, argsConcat, String.append_empty]
  | cons d ds ih =>
    rw [List.foldl_cons]
    have hstep : (some r).getD (initRec d) = r := rfl
    rw [hstep, ih (applyDelta r d)]
    simp only [lastSupplied, argsConcat, applyDelta, Option.some.injEq]
    cases hf : optTruthy d.fargs with
    | true => simp [String.append_assoc]
    | false => simp [String.empty_append]


/-- Claim C1 counterexample: merging is not commutative.  The two
fragments fragArgA and fragArgB at index 0 are a permutation of each other
in either order, yet the accumulated argument text differs ("ab" versus
"ba"), so the final record depends on arrival order, not only on the set
of fragments received. -/
theorem mergeAt_not_commutative :
    List.Perm [fragArgA, fragArgB] [fragArgB, fragArgA] ∧
    mergeAt [fragArgA, fragArgB] ≠ mergeAt [fragArgB, fragArgA] :=
  ⟨List.Perm.swap fragArgB fragArgA [], by decide⟩

/-- Claim C1 (amended): for a given index, the accumulated record is a
deterministic function of the fragment arrival sequence: the final id
(resp. name) is the last truthy id (resp. name) any fragment supplied, or
empty when none did; the final argument text is the concatenation, in
arrival order, of all supplied argument fragments.  Merging is therefore
order-dependent in general (argument concatenation does not commute). -/
theorem mergeAt_determined_by_sequence (d : ToolCallDelta) (ds : List ToolCallDelta) :
    mergeAt (d :: ds) = some
      { id := lastSupplied (fun x => x.id) "" (d :: ds)
        name := lastSupplied (fun x => x.fname) "" (d :: ds)
        arguments := argsConcat (d :: ds) } := by
  have hinit : applyDelta (initRec d) d =
      { id := if optTruthy d.id then d.id.getD "" else ""
        name := if optTruthy d.fname then d.fname.getD "" else ""
        arguments := if optTruthy d.fargs then d.fargs.getD "" else "" } := by
    simp only [applyDelta, initRec, ToolCallRec.mk.injEq]
    refine ⟨?_, ?_, ?_⟩
    · cases h : optTruthy d.id with
      | true => rfl
      | false => simp [optTruthy_false h]
    · cases h : optTruthy d.fname with
      | true => rfl
      | false => simp [optTruthy_false h]
    · cases h : optTruthy d.fargs with
      | true => simp [String.empty_append]
      | false => rfl
  show List.foldl _ none (d :: ds) = _
  rw [List.foldl_cons]
  have h0 : (none : Option ToolCallRec).getD (initRec d) = initRec d := rfl
  rw [h0, hinit, mergeFrom_eq]
  simp only [lastSupplied, argsConcat, Option.some.injEq]

/-- The synthetic error text of a failed tool call is never empty. -/
theorem mcp_error_text_ne_empty (n e : String) : "MCP tool error (" ++ n ++ "): " ++ e ≠ "" := by
  intro h
  have hlen := congrArg String.length h
  rw [String.length_append, String.length_append, String.length_append] at hlen
  have h1 : ("MCP tool error (" : String).length = 16 := by decide
  have h2 : ("): " : String).length = 3 := by decide
  have h3 : ("" : String).length = 0 := by decide
  rw [h1, h2, h3] at hlen
  omega

/-- Over a dense (hole-free) accumulated array, the tool round-trip loop
never crashes and pushes exactly one tool-result message per record,
tagged with that record's call identifier, whatever the parse and call
outcomes are. -/
theorem toolLoop_dense (env : Env) (u : String) (l : List (Option ToolCallRec))
    (h : ∀ o ∈ l, o.isSome = true) :
    (toolLoop env u l).crash = none ∧
    (toolLoop env u l).msgs.map (fun m => m.tool_call_id) =
      l.map (fun o => Option.map (fun r => r.id) o) ∧
    (toolLoop env u l).msgs.map (fun m => m.role) = l.map (fun _ => "tool") := by
  induction l with
  | nil => simp [toolLoop]
  | cons o rest ih =>
    cases o with
    | none => have := h none (List.mem_cons_self _ _); simp at this
    | some tc =>
      have ih' := ih (fun o ho => h o (List.mem_cons_of_mem _ ho))
      cases hp : env.parse (argTextOf tc) with
      | error em =>
        simp only [toolLoop, hp]
        exact ⟨ih'.1, by simp [mkToolMsg, ih'.2.1], by simp [mkToolMsg, ih'.2.2]⟩
      | ok v =>
        simp only [toolLoop, hp]
        exact ⟨ih'.1, by simp [mkToolMsg, ih'.2.1], by simp [mkToolMsg, ih'.2.2]⟩

/-- Claim C5: a failing underlying tool call never raises past callMcpTool;
the function returns a synthetic result whose single text block embeds the
invoked tool's name and the failure detail, and the orchestrator loop
pushes that text as an ordinary tool-result message tied to the call
identifier, exactly as for a successful call. -/
theorem callTool_failure_synthetic (env : Env) (u : String) (tc : ToolCallRec)
    (rest : List (Option ToolCallRec)) (e : String)
    (hp : env.parse (argTextOf tc) = Except.ok ())
    (hr : env.rawCall u tc.name (argTextOf tc) = Except.error e) :
    callMcpTool env u tc.name (argTextOf tc) =
      { content := some [{ type := some "text", text := some ("MCP tool error (" ++ tc.name ++ "): " ++ e) }] } ∧
    (toolLoop env u (some tc :: rest)).msgs =
      mkToolMsg tc.id ("MCP tool error (" ++ tc.name ++ "): " ++ e) :: (toolLoop env u rest).msgs := by
  have hcall : callMcpTool env u tc.name (argTextOf tc) =
      { content := some [{ type := some "text", text := some ("MCP tool error (" ++ tc.name ++ "): " ++ e) }] } := by
    simp [callMcpTool, hr]
  refine ⟨hcall, ?_⟩
  simp only [toolLoop, hp, hcall]
  have htext : resultText
      { content := some [{ type := some "text", text := some ("MCP tool error (" ++ tc.name ++ "): " ++ e) }] } =
      "MCP tool error (" ++ tc.name ++ "): " ++ e := by
    simp [resultText, joinedText, joinStrings, mcp_error_text_ne_empty]
  rw [htext]

/-- Claim C10: when a tool result has no content list, or its blocks'
newline-joined text fields form the empty string (an empty content list
included), the pushed tool-result message carries the JSON serialization
of the whole result; otherwise it carries the newline-joined text
fields. -/
theorem tool_result_text_selection (env : Env) (u : String) (tc : ToolCallRec)
    (rest : List (Option ToolCallRec)) (r : McpToolResult)
    (hp : env.parse (argTextOf tc) = Except.ok ())
    (hr : env.rawCall u tc.name (argTextOf tc) = Except.ok r) :
    (toolLoop env u (some tc :: rest)).msgs =
      mkToolMsg tc.id (resultText r) :: (toolLoop env u rest).msgs ∧
    (r.content = none → resultText r = stringifyResult r) ∧
    (∀ bs, r.content = some bs → joinedText bs = "" → resultText r = stringifyResult r) ∧
    (∀ bs, r.content = some bs → joinedText bs ≠ "" → resultText r = joinedText bs) := by
  have hcall : callMcpTool env u tc.name (argTextOf tc) = r := by
    simp [callMcpTool, hr]
  refine ⟨?_, ?_, ?_, ?_⟩
  · simp only [toolLoop, hp, hcall]
  · intro h; simp [resultText, h]
  · intro bs h hj; simp [resultText, h, hj]
  · intro bs h hj; simp [resultText, h, hj]


/-- Every run's event trace starts with the three pre-completion
events. -/
theorem runStream_events_shape (u : String) (req : ChatRequest) (env : Env) :
    ∃ t, (runStream u req env).events = preEvents env ++ t := by
  unfold runStream afterFirst
  cases env.first with
  | error ce => exact ⟨_, rfl⟩
  | ok chunks =>
    dsimp only
    split
    · split
      · exact ⟨_, rfl⟩
      · split
        · exact ⟨_, rfl⟩
        · exact ⟨_, rfl⟩
    · exact ⟨_, rfl⟩

/-- Every run issues the same first completion request, whatever the
stream later does. -/
theorem runStream_firstRequest_eq (u : String) (req : ChatRequest) (env : Env) :
    (runStream u req env).firstRequest = firstRequestOf req env := by
  unfold runStream afterFirst
  cases env.first with
  | error ce => rfl
  | ok chunks =>
    dsimp only
    split
    · split
      · rfl
      · split <;> rfl
    · rfl

/-- Claim C2: on a successful first stream whose accumulated tool-call
array is non-empty and dense (the spec's dense zero-based index
invariant), the handler appends the assistant tool-call message and then
exactly one tool-result message per fragment — tagged with that fragment's
call identifier — before issuing the follow-up completion request,
regardless of parse or invocation outcomes. -/
theorem toolResults_one_per_fragment (u : String) (req : ChatRequest) (env : Env)
    (cs : List (Option Delta)) (h1 : env.first = Except.ok cs)
    (h2 : (processChunks cs).toolCalls ≠ [])
    (h3 : ∀ o ∈ (processChunks cs).toolCalls, o.isSome = true) :
    ∃ fu : CompletionRequest, (runStream u req env).followUpRequest = some fu ∧
      ∃ (m0 : OutMessage) (tmsgs : List OutMessage),
        fu.messages = allMessagesOf req ++ m0 :: tmsgs ∧
        m0.role = "assistant" ∧
        tmsgs.map (fun m => m.tool_call_id) =
          (processChunks cs).toolCalls.map (fun o => Option.map (fun r => r.id) o) ∧
        tmsgs.map (fun m => m.role) = (processChunks cs).toolCalls.map (fun _ => "tool") := by
  have hd := toolLoop_dense env u (processChunks cs).toolCalls h3
  have hpos : 0 < (processChunks cs).toolCalls.length := List.length_pos.mpr h2
  have key : runStream u req env = afterFirst env u (firstRequestOf req env) (processChunks cs) := by
    unfold runStream
    rw [h1]
  rw [key]
  unfold afterFirst
  rw [if_pos hpos]
  dsimp only
  rw [hd.1]
  cases hfu : env.followUp with
  | ok fchunks =>
    dsimp only
    refine ⟨_, rfl, assistantMsgOf (processChunks cs),
      (toolLoop env u (processChunks cs).toolCalls).msgs, ?_, rfl, hd.2.1, hd.2.2⟩
    simp [firstRequestOf]
  | error m =>
    dsimp only
    refine ⟨_, rfl, assistantMsgOf (processChunks cs),
      (toolLoop env u (processChunks cs).toolCalls).msgs, ?_, rfl, hd.2.1, hd.2.2⟩
    simp [firstRequestOf]

/-- Claim C3: when the first completion succeeds, tool calls were
accumulated (densely) and the follow-up completion request fails, the run
still emits the follow-up error event followed by the terminal done event;
the pre-completion events and every content event streamed from the first
answer are all still present in the trace — nothing is retracted — and
the follow-up request was indeed issued. -/
theorem followUp_failure_still_done (u : String) (req : ChatRequest) (env : Env)
    (cs : List (Option Delta)) (m : String)
    (h1 : env.first = Except.ok cs)
    (h2 : (processChunks cs).toolCalls ≠ [])
    (h3 : ∀ o ∈ (processChunks cs).toolCalls, o.isSome = true)
    (h4 : env.followUp = Except.error m) :
    (runStream u req env).events =
      preEvents env ++ ((processChunks cs).events ++
      [SEvent.status ("Using tools: " ++ toolNamesOf (processChunks cs).toolCalls),
       SEvent.error (formatError "openai" "Follow-up request failed" (some m)) none,
       SEvent.done]) ∧
    (runStream u req env).followUpRequest.isSome = true := by
  have hd := toolLoop_dense env u (processChunks cs).toolCalls h3
  have hpos : 0 < (processChunks cs).toolCalls.length := List.length_pos.mpr h2
  have key : runStream u req env = afterFirst env u (firstRequestOf req env) (processChunks cs) := by
    unfold runStream
    rw [h1]
  rw [key]
  unfold afterFirst
  rw [if_pos hpos]
  dsimp only
  rw [hd.1, h4]
  exact ⟨rfl, rfl⟩

/-- No pre-completion event is a content event. -/
theorem preEvents_no_content (env : Env) :
    ∀ e ∈ preEvents env, ∀ s, e ≠ SEvent.content s := by
  intro e he s
  simp only [preEvents, List.mem_cons, List.mem_singleton] at he
  rcases he with rfl | rfl | rfl | h
  · simp
  · unfold mcpStatusEvent
    cases (getMcpTools env).snd with
    | some er => simp
    | none =>
      dsimp only
      split <;> simp
  · simp
  · simp at h

/-- The scanning loop only ever appends content events. -/
theorem scan_events_content (chunks : List (Option Delta)) (st : ScanState)
    (h : ∀ e ∈ st.events, ∃ s, e = SEvent.content s) :
    ∀ e ∈ (chunks.foldl stepChunk st).events, ∃ s, e = SEvent.content s := by
  induction chunks generalizing st with
  | nil => exact h
  | cons ch rest ih =>
    rw [List.foldl_cons]
    refine ih (stepChunk st ch) ?_
    intro e he
    cases ch with
    | none => exact h e he
    | some dl =>
      simp only [stepChunk] at he
      have hcs : ∀ e2 ∈ (contentStep st dl.content).events, ∃ s, e2 = SEvent.content s := by
        intro e2 he2
        cases hc : dl.content with
        | none => rw [hc] at he2; exact h e2 he2
        | some s =>
          rw [hc] at he2
          simp only [contentStep] at he2
          by_cases hs : s = ""
          · rw [if_pos hs] at he2; exact h e2 he2
          · rw [if_neg hs] at he2
            simp only [List.mem_append, List.mem_singleton] at he2
            rcases he2 with h2 | rfl
            · exact h e2 h2
            · exact ⟨s, rfl⟩
      cases hct : dl.tool_calls with
      | some l =>
        rw [hct] at he
        exact hcs e he
      | none =>
        rw [hct] at he
        exact hcs e he

/-- Claim C7: when the first completion stream yields zero accumulated
tool calls, no follow-up completion request is issued, no tool invocation
occurs, and the done event directly follows the content events of the
first stream (the only earlier events are the pre-completion status and
warning events, none of which is a content event). -/
theorem no_toolcalls_no_followup (u : String) (req : ChatRequest) (env : Env)
    (cs : List (Option Delta)) (h1 : env.first = Except.ok cs)
    (h2 : (processChunks cs).toolCalls = []) :
    (runStream u req env).events = preEvents env ++ ((processChunks cs).events ++ [SEvent.done]) ∧
    (runStream u req env).followUpRequest = none ∧
    (runStream u req env).invocations = [] ∧
    (∀ e ∈ preEvents env, ∀ s, e ≠ SEvent.content s) ∧
    (∀ e ∈ (processChunks cs).events, ∃ s, e = SEvent.content s) := by
  have hlen : ¬ (processChunks cs).toolCalls.length > 0 := by
    rw [h2]
    simp
  have key : runStream u req env = afterFirst env u (firstRequestOf req env) (processChunks cs) := by
    unfold runStream
    rw [h1]
  rw [key]
  unfold afterFirst
  rw [if_neg hlen]
  exact ⟨rfl, rfl, rfl, preEvents_no_content env,
    scan_events_content cs _ (by intro e he; simp at he)⟩

/-- Claim C6: when listTools fails, the second emitted event is a warning
naming the failure, and the first completion request omits the tools field
entirely; more generally, whenever the available tool list is empty the
tools field is absent (undefined), never an empty list. -/
theorem listTools_failure_warning_no_tools (u : String) (req : ChatRequest) (env : Env) (d : String) :
    (env.listTools = Except.error d →
      (runStream u req env).events.get? 1 =
        some (SEvent.warning ("MCP: Failed to connect to MCP server (" ++ d ++ "). Proceeding without tools.")) ∧
      (runStream u req env).firstRequest.tools = none) ∧
    ((getMcpTools env).fst = [] → (runStream u req env).firstRequest.tools = none) := by
  have hempty : (getMcpTools env).fst = [] → (runStream u req env).firstRequest.tools = none := by
    intro h
    rw [runStream_firstRequest_eq]
    simp [firstRequestOf, convertMcpToolsToOpenAI, h]
  refine ⟨?_, hempty⟩
  intro h
  constructor
  · obtain ⟨t, ht⟩ := runStream_events_shape u req env
    rw [ht]
    have hw : mcpStatusEvent env =
        SEvent.warning ("MCP: Failed to connect to MCP server (" ++ d ++ "). Proceeding without tools.") := by
      simp [mcpStatusEvent, getMcpTools, h]
    simp [preEvents, hw]
  · exact hempty (by simp [getMcpTools, h])

/-- Claim C4: on a configured server (truthy credential and endpoint), a
missing or unparsable JSON request body yields the non-streaming 400
response with the error payload; no stream is opened and no stream event
is emitted. -/
theorem malformed_body_400 (apiKey mcpUrl : Option String) (env : Env)
    (ha : apiKey.getD "" ≠ "") (hm : mcpUrl.getD "" ≠ "") :
    POST apiKey mcpUrl none env = PostResult.jsonResponse 400 "Invalid JSON in request body" ∧
    ∀ rr : RunResult, POST apiKey mcpUrl none env ≠ PostResult.streamResponse rr := by
  have hp : POST apiKey mcpUrl none env = PostResult.jsonResponse 400 "Invalid JSON in request body" := by
    simp [POST, ha, hm]
  refine ⟨hp, ?_⟩
  intro rr hcontra
  rw [hp] at hcontra
  exact PostResult.noConfusion hcontra

/-- Claim C8 counterexample: a caller history that itself carries a
system-role message is forwarded unchanged, so the outbound message list
of the first completion request holds two system messages, not exactly
one. -/
theorem system_message_not_unique :
    ¬ ((runStream "u" reqWithSystem sampleEnv).firstRequest.messages.countP
        (fun m => m.role == "system") = 1) := by
  decide

/-- Claim C8 (amended): the handler always places the freshly built system
message first, ahead of every caller message; the outbound list holds
exactly one system message whenever the caller history contains no
system-role message (caller system messages are passed through unchanged
and would add further ones). -/
theorem system_message_first_and_unique (u : String) (req : ChatRequest) (env : Env) :
    (runStream u req env).firstRequest.messages.head? = some (systemMessageOf req) ∧
    ((∀ m ∈ req.messages, m.role ≠ Role.system) →
      (runStream u req env).firstRequest.messages.countP (fun m => m.role == "system") = 1) := by
  rw [runStream_firstRequest_eq]
  constructor
  · simp [firstRequestOf, allMessagesOf]
  · intro h
    simp only [firstRequestOf, allMessagesOf]
    rw [List.countP_cons]
    have hz : (req.messages.map toOutMessage).countP (fun m => m.role == "system") = 0 := by
      rw [List.countP_eq_zero]
      intro m hm
      obtain ⟨m0, hm0, rfl⟩ := List.mem_map.mp hm
      have hr := h m0 hm0
      cases hrole : m0.role with
      | user => simp [toOutMessage, roleString, hrole]
      | assistant => simp [toOutMessage, roleString, hrole]
      | system => exact absurd hrole hr
    rw [hz]
    simp [systemMessageOf]

/-- Claim C9: prompt building is total and falls back on unknown inputs: a
tone outside the three declared keys yields the professional tone text,
and a language code outside the nine declared codes yields the default
English. -/
theorem tone_language_fallback (tone lang : String) :
    (tone ∉ (["professional", "friendly", "concise"] : List String) →
      getTonePrompt tone = "Respond in a professional, formal manner. Be courteous and efficient.") ∧
    (lang ∉ (["en", "es", "fr", "de", "pt", "zh", "ja", "ko", "ar"] : List String) →
      getLanguageName lang = "English") := by
  constructor
  · intro h
    simp only [List.mem_cons, List.mem_singleton, not_or] at h
    simp [getTonePrompt, tonesLookup, h.1, h.2.1, h.2.2]
  · intro h
    simp only [List.mem_cons, List.mem_singleton, not_or] at h
    simp [getLanguageName, languagesLookup, h.1, h.2.1, h.2.2.1, h.2.2.2.1, h.2.2.2.2.1,
      h.2.2.2.2.2.1, h.2.2.2.2.2.2.1, h.2.2.2.2.2.2.2.1, h.2.2.2.2.2.2.2.2]

/-- Witness for claim C2 at a concrete environment whose first stream
yields one content chunk and one complete tool-call fragment. -/
theorem toolResults_one_per_fragment_witness :
    ∃ fu : CompletionRequest, (runStream "u" reqPlain envToolCall).followUpRequest = some fu ∧
      ∃ (m0 : OutMessage) (tmsgs : List OutMessage),
        fu.messages = allMessagesOf reqPlain ++ m0 :: tmsgs ∧
        m0.role = "assistant" ∧
        tmsgs.map (fun m => m.tool_call_id) =
          (processChunks [some { content := some "checking", tool_calls := none }, toolDeltaChunk]).toolCalls.map
            (fun o => Option.map (fun r => r.id) o) ∧
        tmsgs.map (fun m => m.role) =
          (processChunks [some { content := some "checking", tool_calls := none }, toolDeltaChunk]).toolCalls.map
            (fun _ => "tool") :=
  toolResults_one_per_fragment "u" reqPlain envToolCall
    [some { content := some "checking", tool_calls := none }, toolDeltaChunk]
    rfl (by decide) (by decide)

/-- Witness for claim C3 at a concrete environment whose follow-up
completion fails. -/
theorem followUp_failure_still_done_witness :
    (runStream "u" reqPlain envFollowFail).events =
      preEvents envFollowFail ++
      ((processChunks [some { content := some "checking", tool_calls := none }, toolDeltaChunk]).events ++
      [SEvent.status ("Using tools: " ++
        toolNamesOf (processChunks [some { content := some "checking", tool_calls := none }, toolDeltaChunk]).toolCalls),
       SEvent.error (formatError "openai" "Follow-up request failed" (some "boom")) none,
       SEvent.done]) ∧
    (runStream "u" reqPlain envFollowFail).followUpRequest.isSome = true :=
  followUp_failure_still_done "u" reqPlain envFollowFail
    [some { content := some "checking", tool_calls := none }, toolDeltaChunk]
    "boom" rfl (by decide) (by decide) rfl

/-- Witness for claim C4 at a concretely configured server. -/
theorem malformed_body_400_witness :
    POST (some "k") (some "http://mcp") none sampleEnv =
      PostResult.jsonResponse 400 "Invalid JSON in request body" ∧
    ∀ rr : RunResult, POST (some "k") (some "http://mcp") none sampleEnv ≠ PostResult.streamResponse rr :=
  malformed_body_400 (some "k") (some "http://mcp") sampleEnv (by decide) (by decide)

/-- Witness for claim C5 at a concrete environment whose underlying tool
call fails. -/
theorem callTool_failure_synthetic_witness :
    callMcpTool envRawFail "u" ("lookup_order")
        (argTextOf { id := "call_1", name := "lookup_order", arguments := "\x7b\x7d" }) =
      { content := some [{ type := some "text"
                           text := some ("MCP tool error (" ++ "lookup_order" ++ "): " ++ "ECONNREFUSED 127.0.0.1") }] } ∧
    (toolLoop envRawFail "u" (some { id := "call_1", name := "lookup_order", arguments := "\x7b\x7d" } :: [])).msgs =
      mkToolMsg "call_1" ("MCP tool error (" ++ "lookup_order" ++ "): " ++ "ECONNREFUSED 127.0.0.1") ::
        (toolLoop envRawFail "u" []).msgs :=
  callTool_failure_synthetic envRawFail "u"
    { id := "call_1", name := "lookup_order", arguments := "\x7b\x7d" } [] "ECONNREFUSED 127.0.0.1" rfl rfl

/-- Witness for claim C6 at a concrete environment whose listTools
fails. -/
theorem listTools_failure_warning_no_tools_witness :
    (runStream "u" reqPlain envListFail).events.get? 1 =
      some (SEvent.warning
        ("MCP: Failed to connect to MCP server (" ++ "connect ECONNREFUSED" ++ "). Proceeding without tools.")) ∧
    (runStream "u" reqPlain envListFail).firstRequest.tools = none :=
  (listTools_failure_warning_no_tools "u" reqPlain envListFail "connect ECONNREFUSED").1 rfl

/-- Witness for claim C7 at a concrete environment whose first stream
yields no tool-call fragment. -/
theorem no_toolcalls_no_followup_witness :
    (runStream "u" reqPlain sampleEnv).events =
      preEvents sampleEnv ++
        ((processChunks [some { content := some "hello", tool_calls := none }]).events ++ [SEvent.done]) ∧
    (runStream "u" reqPlain sampleEnv).followUpRequest = none ∧
    (runStream "u" reqPlain sampleEnv).invocations = [] ∧
    (∀ e ∈ preEvents sampleEnv, ∀ s, e ≠ SEvent.content s) ∧
    (∀ e ∈ (processChunks [some { content := some "hello", tool_calls := none }]).events,
      ∃ s, e = SEvent.content s) :=
  no_toolcalls_no_followup "u" reqPlain sampleEnv
    [some { content := some "hello", tool_calls := none }] rfl (by decide)

/-- Witness for claim C8 (amended) at a concrete history without
system-role messages. -/
theorem system_message_first_and_unique_witness :
    (runStream "u" reqPlain sampleEnv).firstRequest.messages.head? = some (systemMessageOf reqPlain) ∧
    (runStream "u" reqPlain sampleEnv).firstRequest.messages.countP (fun m => m.role == "system") = 1 :=
  ⟨(system_message_first_and_unique "u" reqPlain sampleEnv).1,
   (system_message_first_and_unique "u" reqPlain sampleEnv).2 (by decide)⟩

/-- Witness for claim C9 at concrete unknown tone and language codes. -/
theorem tone_language_fallback_witness :
    getTonePrompt "sassy" = "Respond in a professional, formal manner. Be courteous and efficient." ∧
    getLanguageName "xx" = "English" :=
  ⟨(tone_language_fallback "sassy" "xx").1 (by decide),
   (tone_language_fallback "sassy" "xx").2 (by decide)⟩

/-- Witness for claim C10 at a concrete environment whose tool result has
no content list (the serialization branch). -/
theorem tool_result_text_selection_witness :
    (toolLoop envEmptyResult "u"
        (some { id := "call_1", name := "lookup_order", arguments := "\x7b\x7d" } :: [])).msgs =
      mkToolMsg "call_1" (resultText { content := none }) :: (toolLoop envEmptyResult "u" []).msgs ∧
    (({ content := none } : McpToolResult).content = none →
      resultText { content := none } = stringifyResult { content := none }) ∧
    (∀ bs, ({ content := none } : McpToolResult).content = some bs → joinedText bs = "" →
      resultText { content := none } = stringifyResult { content := none }) ∧
    (∀ bs, ({ content := none } : McpToolResult).content = some bs → joinedText bs ≠ "" →
      resultText { content := none } = joinedText bs) :=
  tool_result_text_selection envEmptyResult "u"
    { id := "call_1", name := "lookup_order", arguments := "\x7b\x7d" } [] { content := none } rfl rfl
